import Mathlib

/-!
# Verification of the Minecraft on-demand gateway proxy

A shallow embedding of the gateway core in `src/proxy/mc_proxy.py`
(midyear66/minecraftserver), together with theorems settling the claims of
the natural-language specification against this code.

Conventions of the embedding:
* Python byte strings are `List Nat` with every element in `[0, 256)`.
* A socket that `recv(1)`s bytes is a `List Nat`: the bytes the peer will
  deliver, in order; an exhausted list is a closed connection.
* Python dicts keyed by port are association lists `List (Nat × α)`.
* Fallible readers return `Except String`, carrying the Python exception
  message.
* Machine integers are `Nat` (all wire values in the proxy are non-negative);
  the one loop whose behaviour on negative Python ints matters
  (`write_varint`) is additionally modelled over `Int` with explicit fuel.
-/

set_option maxHeartbeats 1000000
set_option maxRecDepth 8192

deriving instance DecidableEq for Except

namespace MCProxy

/-! ## Codec (mc_proxy.py lines 114-157)

Minecraft VarInt framing primitives. -/

/-- Loop body of `read_varint_from_buffer` (lines 133-143): the
`for i in range(5)` loop. `fuel` is the number of remaining iterations and
`i` the current loop index, so `fuel + i = 5` throughout. Exhausting the fuel
corresponds to the loop finishing all five iterations without hitting the
`break`, which in the source raises `ValueError("VarInt too long")`; a read
past the end of `data` raises `ValueError("Buffer too short for VarInt")`. -/
def readVarintFromBufferLoop (data : List Nat) (offset : Nat) :
    Nat → Nat → Nat → Except String (Nat × Nat)
  | 0, _, _ => .error "VarInt too long"
  | fuel + 1, i, result =>
    match data.get? (offset + i) with
    | none => .error "Buffer too short for VarInt"
    | some b =>
      let result' := result ||| ((b &&& 0x7F) <<< (7 * i))
      if b &&& 0x80 = 0 then .ok (result', i + 1)
      else readVarintFromBufferLoop data offset fuel (i + 1) result'

/-- Function `read_varint_from_buffer(data, offset)` (lines 133-143). Returns
`(value, bytes_read)` on success. -/
def read_varint_from_buffer (data : List Nat) (offset : Nat) :
    Except String (Nat × Nat) :=
  readVarintFromBufferLoop data offset 5 0 0

/-- Loop body of the streaming `read_varint(sock)` (lines 114-130). The
stream is the list of bytes `recv(1)` will deliver; an empty stream raises
`ConnectionError("Connection closed")`. Note the asymmetry with the buffered
reader: the source's `for i in range(5)` loop has no `else` clause raising an
error, so after five continuation bytes the function falls through and
RETURNS the accumulated value — exhausted fuel is `.ok`, not an error.
Returns `(value, raw bytes consumed, rest of the stream)`. -/
def readVarintLoop : List Nat → Nat → Nat → Nat → List Nat →
    Except String (Nat × List Nat × List Nat)
  | stream, 0, _, result, raw => .ok (result, raw, stream)
  | [], _ + 1, _, _, _ => .error "Connection closed"
  | b :: rest, fuel + 1, i, result, raw =>
    let result' := result ||| ((b &&& 0x7F) <<< (7 * i))
    if b &&& 0x80 = 0 then .ok (result', raw ++ [b], rest)
    else readVarintLoop rest fuel (i + 1) result' (raw ++ [b])

/-- Function `read_varint(sock)` (lines 114-130) over a byte stream. -/
def read_varint (stream : List Nat) : Except String (Nat × List Nat × List Nat) :=
  readVarintLoop stream 5 0 0 []

/-- Function `write_varint(value)` (lines 146-157) for non-negative values,
where the `while True` loop terminates. Each iteration emits
`value & 0x7F` (with `0x80` or-ed in when more bytes follow) and then shifts
`value` right by 7; the emitted byte order of the Python `result += ...`
accumulation is exactly the cons order here. The behaviour of the same loop
on negative Python ints is modelled by `write_varint_int` below. -/
def write_varint (v : Nat) : List Nat :=
  if h : v >>> 7 = 0 then [v &&& 0x7F]
  else (v &&& 0x7F ||| 0x80) :: write_varint (v >>> 7)
decreasing_by
  simp only [Nat.shiftRight_eq_div_pow] at *
  exact Nat.div_lt_self (Nat.pos_of_ne_zero (fun hv => h (by simp [hv]))) (by norm_num)

/-- The `write_varint` loop over arbitrary Python ints, with explicit fuel.
On a Python int, `value & 0x7F` is the mathematically non-negative remainder
`value % 128` (Lean's `Int.emod`), and the arithmetic shift `value >>= 7` is
floor division by `128`, which for the positive divisor `128` coincides with
Lean's Euclidean `value / 128`; `byte | 0x80` is `byte + 128` since
`byte ∈ [0, 128)`. `none` means the loop did not finish within `fuel`
iterations. -/
def write_varint_int : Nat → Int → Option (List Int)
  | 0, _ => none
  | fuel + 1, v =>
    let byte := v % 128
    let v' := v / 128
    if v' = 0 then some [byte]
    else (write_varint_int fuel v').map fun rest => (byte + 128) :: rest

/-- One-step unfolding of `write_varint` (its defining equation; the
definition uses well-founded recursion, so the kernel does not reduce it
by itself). -/
theorem write_varint_eq (v : Nat) : write_varint v =
    if v >>> 7 = 0 then [v &&& 0x7F]
    else (v &&& 0x7F ||| 0x80) :: write_varint (v >>> 7) := by
  rw [write_varint]
  by_cases h : v >>> 7 = 0 <;> simp [h]

/-! Sanity examples for the codec embedding, matching concrete Python runs:
`write_varint(300) = b"\xac\x02"`, `read_varint_from_buffer(b"\xac\x02") = (300, 2)`. -/

example : write_varint 300 = [0xAC, 0x02] := by
  rw [write_varint_eq, write_varint_eq]; decide
example : read_varint_from_buffer [0xAC, 0x02] 0 = .ok (300, 2) := by decide
example : read_varint [0xAC, 0x02, 0x99] = .ok (300, [0xAC, 0x02], [0x99]) := by
  decide
example : write_varint_int 2 300 = some [0xAC, 0x02] := by decide

/-! ## Claim C5: VarInt malformed-frame behaviour -/

/-- Claim C5, counterexample. The claim states that *both* readers fail when
the fifth byte still has the continuation bit set. The streaming
`read_varint` does not: on the five bytes `FF FF FF FF FF` it returns the
accumulated value `2^35 - 1` successfully (the source's `for` loop has no
error case after the fifth iteration; it falls through to `return`). -/
theorem streaming_reader_accepts_five_continuation_bytes :
    read_varint [0xFF, 0xFF, 0xFF, 0xFF, 0xFF] =
      .ok (34359738367, [0xFF, 0xFF, 0xFF, 0xFF, 0xFF], []) := by decide

/-- If every byte of `data` still has the continuation bit set and the
buffer ends before the loop's five iterations do, the buffered loop fails
with the buffer-too-short error (invariant: `i` never exceeds the length,
and the remaining fuel outlasts the remaining bytes). -/
theorem readVarintFromBufferLoop_truncated (data : List Nat)
    (hbs : ∀ b ∈ data, b &&& 0x80 ≠ 0) :
    ∀ fuel i acc, i ≤ data.length → data.length < i + fuel →
      readVarintFromBufferLoop data 0 fuel i acc =
        .error "Buffer too short for VarInt" := by
  intro fuel
  induction fuel with
  | zero => intro i acc hi hlen; omega
  | succ fuel ih =>
    intro i acc hi hlen
    cases hd : data.get? (0 + i) with
    | none => simp only [readVarintFromBufferLoop, hd]
    | some b =>
      have hib : i < data.length := by
        by_contra hge
        rw [List.get?_eq_none.mpr (by omega)] at hd
        exact absurd hd (by simp)
      simp only [readVarintFromBufferLoop, hd]
      rw [if_neg (hbs b (List.get?_mem hd))]
      exact ih (i + 1) _ (by omega) (by omega)

/-- If every byte the stream will deliver has the continuation bit set and
the stream is shorter than the loop's remaining iterations, the streaming
loop exhausts the stream and fails with the connection-closed error. -/
theorem readVarintLoop_truncated :
    ∀ (stream : List Nat), (∀ b ∈ stream, b &&& 0x80 ≠ 0) →
    ∀ (fuel i acc : Nat) (raw : List Nat), stream.length < fuel →
      readVarintLoop stream fuel i acc raw = .error "Connection closed" := by
  intro stream
  induction stream with
  | nil =>
    intro hbs fuel i acc raw hlen
    obtain ⟨f, rfl⟩ : ∃ f, fuel = f + 1 := ⟨fuel - 1, by omega⟩
    rfl
  | cons b rest ih =>
    intro hbs fuel i acc raw hlen
    obtain ⟨f, rfl⟩ : ∃ f, fuel = f + 1 := ⟨fuel - 1, by omega⟩
    simp only [readVarintLoop]
    rw [if_neg (hbs b (by simp))]
    exact ih (fun x hx => hbs x (by simp [hx])) f (i + 1) _ _
      (by simpa using hlen)

/-- Claim C5, corrected. The buffered reader fails with `VarInt too long`
whenever the fifth byte still has the continuation bit set; the streaming
reader, however, returns the accumulated value after consuming five
continuation bytes instead of failing. Both readers fail when the input
ends mid-value, at any truncation point: `bs` ranges over every
still-continued input of fewer than five bytes. -/
theorem varint_fifth_continuation_and_truncation
    (b0 b1 b2 b3 b4 : Nat) (rest bs : List Nat)
    (h0 : b0 &&& 0x80 ≠ 0) (h1 : b1 &&& 0x80 ≠ 0) (h2 : b2 &&& 0x80 ≠ 0)
    (h3 : b3 &&& 0x80 ≠ 0) (h4 : b4 &&& 0x80 ≠ 0)
    (hbs : ∀ b ∈ bs, b &&& 0x80 ≠ 0) (hlen : bs.length < 5) :
    read_varint_from_buffer (b0 :: b1 :: b2 :: b3 :: b4 :: rest) 0 =
      .error "VarInt too long"
    ∧ read_varint (b0 :: b1 :: b2 :: b3 :: b4 :: rest) =
        .ok ((b0 &&& 0x7F) ||| ((b1 &&& 0x7F) <<< 7) ||| ((b2 &&& 0x7F) <<< 14) |||
              ((b3 &&& 0x7F) <<< 21) ||| ((b4 &&& 0x7F) <<< 28),
             [b0, b1, b2, b3, b4], rest)
    ∧ read_varint_from_buffer bs 0 = .error "Buffer too short for VarInt"
    ∧ read_varint bs = .error "Connection closed" := by
  refine ⟨?_, ?_, ?_, ?_⟩
  · simp [read_varint_from_buffer, readVarintFromBufferLoop, h0, h1, h2, h3, h4]
  · simp [read_varint, readVarintLoop, h0, h1, h2, h3, h4]
  · exact readVarintFromBufferLoop_truncated bs hbs 5 0 0 (by omega) (by omega)
  · exact readVarintLoop_truncated bs hbs 5 0 0 [] hlen

/-- Witness for `varint_fifth_continuation_and_truncation` at the concrete
bytes `FF FF FF FF FF` (and the truncated input `FF FF FF FF`). -/
theorem varint_fifth_continuation_and_truncation_witness :
    read_varint_from_buffer [0xFF, 0xFF, 0xFF, 0xFF, 0xFF] 0 =
      .error "VarInt too long"
    ∧ read_varint [0xFF, 0xFF, 0xFF, 0xFF, 0xFF] =
        .ok ((0xFF &&& 0x7F) ||| ((0xFF &&& 0x7F) <<< 7) ||| ((0xFF &&& 0x7F) <<< 14) |||
              ((0xFF &&& 0x7F) <<< 21) ||| ((0xFF &&& 0x7F) <<< 28),
             [0xFF, 0xFF, 0xFF, 0xFF, 0xFF], [])
    ∧ read_varint_from_buffer [0xFF, 0xFF, 0xFF, 0xFF] 0 =
        .error "Buffer too short for VarInt"
    ∧ read_varint [0xFF, 0xFF, 0xFF, 0xFF] = .error "Connection closed" :=
  varint_fifth_continuation_and_truncation 0xFF 0xFF 0xFF 0xFF 0xFF []
    [0xFF, 0xFF, 0xFF, 0xFF]
    (by decide) (by decide) (by decide) (by decide) (by decide)
    (by decide) (by decide)

/-! ## Claim C10: termination of the `write_varint` loop -/

/-- Claim C10: the `write_varint` loop terminates for every non-negative
input, producing at least one byte, and for every negative input it never
terminates (Python's `value >>= 7` is an arithmetic shift, which keeps
negative values strictly negative forever). -/
theorem write_varint_loop_terminates_iff_nonneg :
    (∀ v : Int, 0 ≤ v →
      ∃ fuel l, write_varint_int fuel v = some l ∧ 1 ≤ l.length)
    ∧ (∀ v : Int, v < 0 → ∀ fuel, write_varint_int fuel v = none) := by
  constructor
  · intro v hv
    obtain ⟨n, rfl⟩ := Int.eq_ofNat_of_zero_le hv
    clear hv
    induction n using Nat.strong_induction_on with
    | _ n ih =>
      by_cases h : (n : Int) / 128 = 0
      · refine ⟨1, [(n : Int) % 128], ?_, by simp⟩
        simp only [write_varint_int]
        rw [if_pos h]
      · have hdiv : ((n : Int)) / 128 = ((n / 128 : Nat) : Int) :=
          (Int.ofNat_ediv n 128).symm
        have hn : 0 < n := by
          rcases Nat.eq_zero_or_pos n with h0 | h0
          · exact absurd (by simp [h0]) h
          · exact h0
        obtain ⟨fuel, l, hl, hlen⟩ :=
          ih (n / 128) (Nat.div_lt_self hn (by norm_num))
        refine ⟨fuel + 1, ((n : Int) % 128 + 128) :: l, ?_, by simp⟩
        simp only [write_varint_int]
        rw [if_neg h, hdiv, hl]
        rfl
  · intro v hv fuel
    induction fuel generalizing v with
    | zero => rfl
    | succ fuel ih =>
      have hdiv : v / 128 < 0 := Int.ediv_neg' hv (by norm_num)
      simp only [write_varint_int]
      rw [if_neg hdiv.ne, ih _ hdiv]
      rfl

/-- Witness for `write_varint_loop_terminates_iff_nonneg`: the non-negative
input `300` terminates with at least one byte, and the negative input `-3`
makes no progress at fuel `5`. -/
theorem write_varint_loop_terminates_iff_nonneg_witness :
    (∃ fuel l, write_varint_int fuel 300 = some l ∧ 1 ≤ l.length)
    ∧ write_varint_int 5 (-3) = none :=
  ⟨write_varint_loop_terminates_iff_nonneg.1 300 (by decide),
   write_varint_loop_terminates_iff_nonneg.2 (-3) (by decide) 5⟩

/-! ## Claim C9: VarInt encode/decode roundtrip

Bit-arithmetic facts about the byte operations used by the codec. -/

/-- Bitwise-or of disjoint ranges is addition: the bits of `a` live below
bit `k` and the bits of `b <<< k` live at bit `k` and above. -/
theorem lor_shiftLeft_eq_add {a : Nat} (k b : Nat) (h : a < 2 ^ k) :
    a ||| (b <<< k) = a + b * 2 ^ k := by
  rw [Nat.shiftLeft_eq, Nat.lor_comm, mul_comm b (2 ^ k),
    ← Nat.mul_add_lt_is_or h b]
  omega

/-- Masking with `0x7F` is reduction modulo `128`. -/
theorem and_0x7F_eq_mod (x : Nat) : x &&& 0x7F = x % 128 := by
  have h : (0x7F : Nat) = 2 ^ 7 - 1 := by norm_num
  rw [h, Nat.and_pow_two_sub_one_eq_mod]

/-- A byte below `128` has a clear continuation bit. -/
theorem and_0x80_eq_zero {x : Nat} (h : x < 128) : x &&& 0x80 = 0 := by
  have h80 : (0x80 : Nat) = 2 ^ 7 := by norm_num
  have hx : x < 2 ^ 7 := lt_of_lt_of_le h (by norm_num)
  rw [h80, Nat.and_two_pow, Nat.testBit_lt_two_pow hx]
  norm_num

/-- Adding `128` to a value below `128` sets exactly the continuation bit. -/
theorem add_128_and_0x80 {x : Nat} (h : x < 128) : (x + 128) &&& 0x80 = 0x80 := by
  have hbit : (x + 128).testBit 7 = true := by
    rw [Nat.testBit_to_div_mod]
    have h2 : (2 : Nat) ^ 7 = 128 := by norm_num
    rw [h2]
    have hdiv : (x + 128) / 128 = 1 := by omega
    rw [hdiv]
    decide
  calc (x + 128) &&& 0x80 = (x + 128) &&& 2 ^ 7 := by norm_num
    _ = ((x + 128).testBit 7).toNat * 2 ^ 7 := Nat.and_two_pow _ 7
    _ = 0x80 := by rw [hbit]; norm_num

/-- Oring `0x80` into a byte below `128` is addition of `128`. -/
theorem lor_0x80_eq_add {x : Nat} (h : x < 128) : x ||| 0x80 = x + 128 := by
  have := lor_shiftLeft_eq_add 7 1 (lt_of_lt_of_le h (by norm_num) : x < 2 ^ 7)
  simpa using this

/-- Central roundtrip lemma: running the buffered-reader loop over the bytes
`write_varint v` produced, from loop index `i` with accumulated bits
`acc < 2^(7*i)`, yields `acc + v * 2^(7*i)` and the index just past the
encoding. `data` must agree with the encoding of `v` from position
`offset + i` on. -/
theorem readVarintFromBufferLoop_write_varint (v : Nat) :
    ∀ (fuel i acc offset : Nat) (data : List Nat),
      (∀ k, data.get? (offset + i + k) = (write_varint v).get? k) →
      0 < fuel → v < 2 ^ (7 * fuel) → acc < 2 ^ (7 * i) →
      readVarintFromBufferLoop data offset fuel i acc =
        .ok (acc + v * 2 ^ (7 * i), i + (write_varint v).length) := by
  induction v using Nat.strong_induction_on with
  | _ v ih =>
    intro fuel i acc offset data hdata hfuel hv hacc
    obtain ⟨f, rfl⟩ : ∃ f, fuel = f + 1 := ⟨fuel - 1, by omega⟩
    have hshift : v >>> 7 = v / 128 := by
      rw [Nat.shiftRight_eq_div_pow]
    by_cases h7 : v >>> 7 = 0
    · -- final byte: `v < 128`, encoding is `[v]`
      have hv128 : v < 128 := by
        rw [hshift] at h7; omega
      have hw : write_varint v = [v] := by
        rw [write_varint_eq, if_pos h7, and_0x7F_eq_mod, Nat.mod_eq_of_lt hv128]
      have hd : data.get? (offset + i) = some v := by
        have h0 := hdata 0
        rw [hw] at h0
        simpa using h0
      simp only [readVarintFromBufferLoop, hd]
      rw [and_0x7F_eq_mod v, Nat.mod_eq_of_lt hv128, if_pos (and_0x80_eq_zero hv128),
        lor_shiftLeft_eq_add _ _ hacc, hw]
      try simp
    · -- continuation byte `v % 128 + 128`, then the encoding of `v / 128`
      have hv128 : 128 ≤ v := by
        rw [hshift] at h7; omega
      have hw : write_varint v =
          (v % 128 + 128) :: write_varint (v >>> 7) := by
        rw [write_varint_eq, if_neg h7, and_0x7F_eq_mod,
          lor_0x80_eq_add (Nat.mod_lt v (by norm_num))]
      have hd : data.get? (offset + i) = some (v % 128 + 128) := by
        have h0 := hdata 0
        rw [hw] at h0
        simpa using h0
      have hf : 0 < f := by
        rcases Nat.eq_zero_or_pos f with rfl | hf
        · norm_num at hv; omega
        · exact hf
      have hmod : (v % 128 + 128) % 128 = v % 128 := by omega
      have hcont : ¬ (v % 128 + 128) &&& 0x80 = 0 := by
        rw [add_128_and_0x80 (Nat.mod_lt v (by norm_num))]
        norm_num
      have hacc' : acc + v % 128 * 2 ^ (7 * i) < 2 ^ (7 * (i + 1)) := by
        have hp : (2 : Nat) ^ (7 * (i + 1)) = 128 * 2 ^ (7 * i) := by
          rw [show 7 * (i + 1) = 7 * i + 7 by ring, pow_add]
          ring
        have hmul : v % 128 * 2 ^ (7 * i) ≤ 127 * 2 ^ (7 * i) :=
          Nat.mul_le_mul_right _ (by omega)
        omega
      have hdata' : ∀ k, data.get? (offset + (i + 1) + k) =
          (write_varint (v >>> 7)).get? k := by
        intro k
        have hk := hdata (k + 1)
        rw [hw] at hk
        rw [show offset + (i + 1) + k = offset + i + (k + 1) by ring, hk]
        simp
      have hv' : v >>> 7 < 2 ^ (7 * f) := by
        rw [hshift]
        rw [show 7 * (f + 1) = 7 * f + 7 by ring, pow_add] at hv
        exact (Nat.div_lt_iff_lt_mul (by norm_num)).mpr (by
          calc v < 2 ^ (7 * f) * 2 ^ 7 := hv
          _ = 2 ^ (7 * f) * 128 := by norm_num)
      have hrec := ih (v >>> 7) (by rw [hshift]; exact Nat.div_lt_self (by omega) (by norm_num))
        f (i + 1) (acc + v % 128 * 2 ^ (7 * i)) offset data hdata' hf hv' hacc'
      simp only [readVarintFromBufferLoop, hd]
      rw [if_neg hcont, and_0x7F_eq_mod, hmod,
        lor_shiftLeft_eq_add _ _ hacc, hrec, hw]
      have harith : acc + v % 128 * 2 ^ (7 * i) + v >>> 7 * 2 ^ (7 * (i + 1)) =
          acc + v * 2 ^ (7 * i) := by
        rw [hshift, show 7 * (i + 1) = 7 * i + 7 by ring, pow_add,
          show (2 : Nat) ^ 7 = 128 by norm_num]
        have hsplit : v % 128 + 128 * (v / 128) = v := Nat.mod_add_div v 128
        calc acc + v % 128 * 2 ^ (7 * i) + v / 128 * (2 ^ (7 * i) * 128)
            = acc + (v % 128 + 128 * (v / 128)) * 2 ^ (7 * i) := by ring
          _ = acc + v * 2 ^ (7 * i) := by rw [hsplit]
      rw [harith]
      simp only [List.length_cons]
      have hlen : i + 1 + (write_varint (v >>> 7)).length =
          i + ((write_varint (v >>> 7)).length + 1) := by omega
      rw [hlen]

/-- Claim C9: for every `v` in `[0, 2^31 - 1]`, decoding the bytes produced
by `write_varint v` with the buffered reader returns exactly `v` and
consumes exactly the bytes produced. -/
theorem varint_roundtrip (v : Nat) (h : v < 2 ^ 31) :
    read_varint_from_buffer (write_varint v) 0 =
      .ok (v, (write_varint v).length) := by
  have h35 : v < 2 ^ (7 * 5) := lt_of_lt_of_le h (by norm_num)
  have := readVarintFromBufferLoop_write_varint v 5 0 0 0 (write_varint v)
    (fun k => by simp) (by norm_num) h35 (by norm_num)
  simpa [read_varint_from_buffer] using this

/-- Witness for `varint_roundtrip` at `v = 300`. -/
theorem varint_roundtrip_witness :
    read_varint_from_buffer (write_varint 300) 0 =
      .ok (300, (write_varint 300).length) :=
  varint_roundtrip 300 (by norm_num)

/-! ## Registry, handshake and per-backend state (mc_proxy.py lines 95-99,
176-205, 222-247, 267-294)

The global dicts `server_connections`, `server_states` and `shutdown_timers`
(lines 96-98) are modelled as association lists with mapping semantics.
`threading.Timer` objects that have been `start()`ed and not `cancel()`led
are tracked in `live_timers` (id, absolute fire time); `shutdown_timers`
holds the id of the timer object currently stored in the Python dict.
Overwriting a dict slot drops the reference but does not cancel the
timer object, so the timer stays in `live_timers`. -/

/-- Lifecycle phase value of `server_states[port]`:
`'stopped' | 'starting' | 'running'` (line 97). -/
inductive Phase
  | stopped
  | starting
  | running
deriving BEq, DecidableEq

@[simp] theorem Phase.beq_stopped_stopped : (Phase.stopped == Phase.stopped) = true := rfl

@[simp] theorem Phase.beq_stopped_starting : (Phase.stopped == Phase.starting) = false := rfl

@[simp] theorem Phase.beq_stopped_running : (Phase.stopped == Phase.running) = false := rfl

@[simp] theorem Phase.beq_starting_stopped : (Phase.starting == Phase.stopped) = false := rfl

@[simp] theorem Phase.beq_starting_starting : (Phase.starting == Phase.starting) = true := rfl

@[simp] theorem Phase.beq_starting_running : (Phase.starting == Phase.running) = false := rfl

@[simp] theorem Phase.beq_running_stopped : (Phase.running == Phase.stopped) = false := rfl

@[simp] theorem Phase.beq_running_starting : (Phase.running == Phase.starting) = false := rfl

@[simp] theorem Phase.beq_running_running : (Phase.running == Phase.running) = true := rfl

/-- One entry of `config['servers']` as the proxy reads it (§6 of the spec;
the proxy itself consumes only `name`, `container_name`, `external_port`
and `internal_port`). `display_max_players` is the registry's cached
`display_metadata.max_players`. -/
structure ServerEntry where
  name : String
  container_name : String
  external_port : Nat
  internal_port : Nat
  display_max_players : Nat
deriving BEq, DecidableEq

/-- The global settings the proxy consumes: `config.get('timeout', 5)` and
`config.get('auto_shutdown', True)` (lines 401-402), plus the server list.
`none` models an absent key, read through the Python defaults below. -/
structure Config where
  timeout : Option Nat
  auto_shutdown : Option Bool
  servers : List ServerEntry
deriving BEq, DecidableEq

/-- Python `config.get('timeout', 5)`. -/
def Config.timeoutMinutes (cfg : Config) : Nat := cfg.timeout.getD 5

/-- Python `config.get('auto_shutdown', True)`. -/
def Config.autoShutdown (cfg : Config) : Bool := cfg.auto_shutdown.getD true

/-- Method `DockerManager.get_server_by_port` (lines 274-279): first entry
whose `external_port` equals `port`, else `None`. -/
def get_server_by_port (cfg : Config) (port : Nat) : Option ServerEntry :=
  cfg.servers.find? (fun s => s.external_port == port)

/-- The result of `parse_handshake` (lines 176-205). -/
structure Handshake where
  packet_id : Nat
  protocol_version : Nat
  server_address : String
  server_port : Nat
  next_state : Nat
deriving BEq, DecidableEq

/-- The JSON object `build_status_response` (lines 222-247) serializes. -/
structure StatusJson where
  version_name : String
  version_protocol : Nat
  players_max : Nat
  players_online : Nat
  description_text : String
deriving BEq, DecidableEq

/-- Function `build_status_response(motd, protocol_version, max_players,
online)` (lines 222-247), as the JSON object it serializes. The Python
defaults `protocol_version=765, max_players=20, online=0` are applied at
each call site. -/
def build_status_response (motd : String) (protocol_version max_players online : Nat) :
    StatusJson :=
  { version_name := "1.20.4"
    version_protocol := protocol_version
    players_max := max_players
    players_online := online
    description_text := motd }

/-! ### Dict operations

Association lists with mapping semantics: `dictSet` replaces the binding of
the key; representation order is irrelevant because the proxy only reads
dicts through lookup, membership and deletion. -/

/-- Python `d.get(k)` / `k in d`. -/
def dictFind {α : Type} (d : List (Nat × α)) (k : Nat) : Option α :=
  (d.find? (fun p => p.1 == k)).map (fun p => p.2)

/-- Python `d.get(k, dflt)`. -/
def dictGet {α : Type} (d : List (Nat × α)) (k : Nat) (dflt : α) : α :=
  (dictFind d k).getD dflt

/-- Python `d[k] = v`. -/
def dictSet {α : Type} (d : List (Nat × α)) (k : Nat) (v : α) : List (Nat × α) :=
  (k, v) :: d.filter (fun p => p.1 != k)

/-- Python `del d[k]`. -/
def dictDel {α : Type} (d : List (Nat × α)) (k : Nat) : List (Nat × α) :=
  d.filter (fun p => p.1 != k)

theorem dictFind_dictSet {α : Type} (d : List (Nat × α)) (k : Nat) (v : α) :
    dictFind (dictSet d k v) k = some v := by
  simp [dictFind, dictSet]

theorem dictGet_dictSet {α : Type} (d : List (Nat × α)) (k : Nat) (v dflt : α) :
    dictGet (dictSet d k v) k dflt = v := by
  simp [dictGet, dictFind_dictSet]

/-! ### Global mutable state and observable effects -/

/-- The proxy's global mutable state (lines 96-98) plus the set of live
`threading.Timer` objects. -/
structure ProxyState where
  server_connections : List (Nat × Nat)
  server_states : List (Nat × Phase)
  shutdown_timers : List (Nat × Nat)
  live_timers : List (Nat × Nat)
  next_timer_id : Nat
deriving BEq, DecidableEq

/-- The empty initial state. -/
def initState : ProxyState := ⟨[], [], [], [], 0⟩

/-- Calls made to the container runtime adapter (`DockerManager.start_server`
/ `DockerManager.stop_server`). -/
inductive AdapterCall
  | start (port : Nat)
  | stop (port : Nat)
deriving BEq, DecidableEq

/-- Usage-log events the proxy emits (`UsageLogger`, lines 51-86). -/
inductive Event
  | server_start (port : Nat)
  | server_stop (port : Nat) (reason : String)
  | player_join (port : Nat) (players : Nat)
  | player_leave (port : Nat) (players : Nat)
deriving BEq, DecidableEq

/-! ## Status responder (mc_proxy.py lines 462-537) -/

/-- The observable outcome of `handle_status_request`. -/
structure StatusResult where
  state : ProxyState
  events : List Event
  calls : List AdapterCall
  routed_entry : Option ServerEntry
  response : Option StatusJson
deriving BEq, DecidableEq

/-- Function `handle_status_request(client, handshake, handshake_raw,
docker_mgr)` (lines 462-537). The routing key is
`port = handshake['server_port']` (line 468). `dockerRunning` is the result
of `docker_mgr.is_server_running(port)` (only queried when a registry entry
exists, line 473); `relayOk` is whether the transparent relay to the live
backend (lines 475-507) ran to completion — on any exception there the
handler falls through to the synthesized "sleeping" response (lines
515-521). The handler never touches `server_connections`, `server_states`
or `shutdown_timers`, never calls the adapter's start/stop and never logs a
usage event, which the returned record reflects; `response = none` means
the status response was relayed from the backend rather than synthesized. -/
def handle_status_request (cfg : Config) (handshake : Handshake)
    (dockerRunning relayOk : Bool) (st : ProxyState) : StatusResult :=
  let port := handshake.server_port
  let server_info := get_server_by_port cfg port
  if server_info.isSome && dockerRunning && relayOk then
    { state := st, events := [], calls := [], routed_entry := server_info,
      response := none }
  else
    let motd := "§7Server is sleeping. §aConnect to wake it up!"
    { state := st, events := [], calls := [], routed_entry := server_info,
      response := some (build_status_response motd handshake.protocol_version 20 0) }

/-! ## Connection tracker and idle scheduler (mc_proxy.py lines 369-428) -/

/-- Function `increment_connections(port, ...)` (lines 369-387): bump the
count and cancel the pending shutdown timer if the dict holds one. -/
def increment_connections (port : Nat) (st : ProxyState) : ProxyState × List Event :=
  let count := dictGet st.server_connections port 0 + 1
  let st1 := { st with server_connections := dictSet st.server_connections port count }
  let st2 :=
    match dictFind st1.shutdown_timers port with
    | some tid =>
      { st1 with shutdown_timers := dictDel st1.shutdown_timers port,
                 live_timers := st1.live_timers.filter (fun t => t.1 != tid) }
    | none => st1
  (st2, [Event.player_join port count])

/-- Function `decrement_connections(port, config, ...)` (lines 390-428):
`max(0, count - 1)`; when the count reaches `0` and
`config.get('auto_shutdown', True)` holds, create a `threading.Timer` with
delay `config.get('timeout', 5) * 60` seconds, store it in
`shutdown_timers[port]` and start it. The dict slot is overwritten without
cancelling any timer object it previously held. `now` is the wall-clock
time of the call; the new timer will fire at `now + timeout * 60`. -/
def decrement_connections (cfg : Config) (port now : Nat) (st : ProxyState) :
    ProxyState × List Event :=
  let count := dictGet st.server_connections port 0 - 1
  let st1 := { st with server_connections := dictSet st.server_connections port count }
  if count == 0 && cfg.autoShutdown then
    let tid := st1.next_timer_id
    let st2 := { st1 with
      shutdown_timers := dictSet st1.shutdown_timers port tid,
      live_timers := st1.live_timers ++ [(tid, now + cfg.timeoutMinutes * 60)],
      next_timer_id := tid + 1 }
    (st2, [Event.player_leave port count])
  else
    (st1, [Event.player_leave port count])

/-- The `do_shutdown` timer callback (lines 405-417), fired for timer `tid`.
A started `threading.Timer` fires unless it was `cancel()`led; any timer
still in `live_timers` may fire, including one whose `shutdown_timers` slot
was overwritten. The callback re-checks the connection count under the lock
and stops the container when it is still zero. -/
def fire_shutdown_timer (port tid : Nat) (st : ProxyState) :
    ProxyState × List Event × List AdapterCall :=
  if st.live_timers.any (fun t => t.1 == tid) then
    let st1 := { st with live_timers := st.live_timers.filter (fun t => t.1 != tid) }
    if dictGet st1.server_connections port 0 == 0 then
      ({ st1 with server_states := dictSet st1.server_states port Phase.stopped },
       [Event.server_stop port "idle_timeout"], [AdapterCall.stop port])
    else
      (st1, [], [])
  else
    (st, [], [])

/-! ## Login gatekeeper and lifecycle controller (mc_proxy.py lines 540-661) -/

/-- The observable outcome of `handle_login_request`. `proxied = true` means
the handler reached `proxy_data` (line 647): the backend dial succeeded and
the retained handshake and Login-Start bytes were forwarded. The later
`decrement_connections` when the splice ends (line 649) is modelled
separately by `decrement_connections`. -/
structure LoginResult where
  state : ProxyState
  events : List Event
  calls : List AdapterCall
  routed_entry : Option ServerEntry
  disconnect : Option String
  proxied : Bool
deriving BEq, DecidableEq

/-- Lines 633-653 of `handle_login_request`: dial the backend
(`connectOk` is whether the 10-second connect succeeded), forward the
retained bytes, `increment_connections`, and hand off to `proxy_data`. A
dial failure raises, is caught by the outer `except` (line 655), and the
client is closed with no Disconnect packet. -/
def dial_and_splice (port : Nat) (connectOk : Bool) (st : ProxyState)
    (events : List Event) (calls : List AdapterCall)
    (server_info : Option ServerEntry) : LoginResult :=
  if connectOk then
    let inc := increment_connections port st
    { state := inc.1, events := events ++ inc.2, calls := calls,
      routed_entry := server_info, disconnect := none, proxied := true }
  else
    { state := st, events := events, calls := calls,
      routed_entry := server_info, disconnect := none, proxied := false }

/-- Function `handle_login_request(client, handshake, handshake_raw, config,
docker_mgr)` (lines 540-661). The routing key is
`port = handshake['server_port']` (line 542). Environment outcomes are
parameters: `loginOk` — the Login-Start packet parsed (lines 562-576);
`actuallyRunning` — `docker_mgr.is_server_running(port)` (line 581);
`startOk` — `docker_mgr.start_server(port)` (line 599); `readyOk` —
`docker_mgr.wait_for_server_ready(port, 120)` (lines 608 and 628);
`connectOk` — the backend dial (line 636).

The handler reconciles the in-memory phase with Docker (lines 583-591),
then dispatches: from `stopped` it marks `starting`, starts the container
and waits for readiness, reverting to `stopped` and sending a Disconnect on
failure (lines 593-624); from `starting` it only waits, sending a
Disconnect on timeout WITHOUT touching the phase (lines 626-631); from
`running` it dials directly. -/
def handle_login_request (cfg : Config) (handshake : Handshake) (loginOk : Bool)
    (actuallyRunning startOk readyOk connectOk : Bool) (st : ProxyState) :
    LoginResult :=
  let port := handshake.server_port
  let server_info := get_server_by_port cfg port
  match server_info with
  | none =>
    { state := st, events := [], calls := [], routed_entry := none,
      disconnect := some "No server configured for this port.", proxied := false }
  | some _ =>
    if !loginOk then
      { state := st, events := [], calls := [], routed_entry := server_info,
        disconnect := some "Invalid login packet", proxied := false }
    else
      let state0 := dictGet st.server_states port Phase.stopped
      let st1 :=
        if actuallyRunning && (state0 == Phase.stopped) then
          { st with server_states := dictSet st.server_states port Phase.running }
        else if !actuallyRunning && (state0 == Phase.running) then
          { st with server_states := dictSet st.server_states port Phase.stopped }
        else st
      let state1 :=
        if actuallyRunning && (state0 == Phase.stopped) then Phase.running
        else if !actuallyRunning && (state0 == Phase.running) then Phase.stopped
        else state0
      if state1 == Phase.stopped then
        let st2 := { st1 with server_states := dictSet st1.server_states port Phase.starting }
        if !startOk then
          { state := { st2 with server_states := dictSet st2.server_states port Phase.stopped },
            events := [], calls := [AdapterCall.start port], routed_entry := server_info,
            disconnect := some "Failed to start server. Please try again.",
            proxied := false }
        else if !readyOk then
          { state := { st2 with server_states := dictSet st2.server_states port Phase.stopped },
            events := [], calls := [AdapterCall.start port], routed_entry := server_info,
            disconnect := some "Server failed to start. Please try again.",
            proxied := false }
        else
          let st3 := { st2 with server_states := dictSet st2.server_states port Phase.running }
          dial_and_splice port connectOk st3 [Event.server_start port]
            [AdapterCall.start port] server_info
      else if state1 == Phase.starting then
        if !readyOk then
          { state := st1, events := [], calls := [], routed_entry := server_info,
            disconnect := some "Server is starting. Please try again.",
            proxied := false }
        else
          dial_and_splice port connectOk st1 [] [] server_info
      else
        dial_and_splice port connectOk st1 [] [] server_info

/-- Function `handle_client(client, addr, config, docker_mgr)` (lines
664-696) together with its listener context: `acceptPort` is the local port
on which `start_listener` (lines 699-715) bound and accepted the
connection. The Python handler receives only the client socket and never
consults the accept port; both sub-handlers route by
`handshake['server_port']`. A `next_state` outside `{1, 2}` closes the
connection with no response. -/
inductive ClientOutcome
  | status (r : StatusResult)
  | login (r : LoginResult)
  | dropped
deriving BEq, DecidableEq

def handle_client (acceptPort : Nat) (cfg : Config) (handshake : Handshake)
    (dockerRunning relayOk loginOk actuallyRunning startOk readyOk connectOk : Bool)
    (st : ProxyState) : ClientOutcome :=
  if handshake.next_state == 1 then
    .status (handle_status_request cfg handshake dockerRunning relayOk st)
  else if handshake.next_state == 2 then
    .login (handle_login_request cfg handshake loginOk actuallyRunning startOk
      readyOk connectOk st)
  else
    .dropped

/-- The registry entry a `handle_client` outcome routed to. -/
def ClientOutcome.routedEntry : ClientOutcome → Option ServerEntry
  | .status r => r.routed_entry
  | .login r => r.routed_entry
  | .dropped => none

/-! ## Concrete fixtures used by counterexamples and witnesses -/

/-- A registry entry on external port `25565` whose cached
`display_metadata.max_players` is `30` (deliberately different from the
encoder's hardcoded default of `20`). -/
def alphaEntry : ServerEntry := ⟨"alpha", "mc-alpha", 25565, 30001, 30⟩

/-- A second registry entry on external port `30001`. -/
def betaEntry : ServerEntry := ⟨"beta", "mc-beta", 30001, 30002, 40⟩

/-- A one-server registry with the default timeout and auto-shutdown. -/
def exampleConfig : Config := ⟨some 5, some true, [alphaEntry]⟩

/-- A two-server registry. -/
def twoServerConfig : Config := ⟨some 5, some true, [alphaEntry, betaEntry]⟩

/-- A status handshake that honestly names the dialed port `25565`. -/
def statusHandshake : Handshake := ⟨0, 765, "example.com", 25565, 1⟩

/-- A login handshake for port `25565`. -/
def loginHandshake : Handshake := ⟨0, 765, "example.com", 25565, 2⟩

/-- A status handshake sent over a connection accepted on port `25565` but
whose client-controlled `server_port` field claims `30001`. -/
def spoofedStatusHandshake : Handshake := ⟨0, 765, "example.com", 30001, 1⟩

/-- The login variant of `spoofedStatusHandshake`. -/
def spoofedLoginHandshake : Handshake := ⟨0, 765, "example.com", 30001, 2⟩

/-! ## Claim C1: routing key -/

/-- Both branches of the status responder return the registry entry looked
up under `handshake['server_port']`. -/
theorem handle_status_request_routed_entry (cfg : Config) (h : Handshake)
    (dockerRunning relayOk : Bool) (st : ProxyState) :
    (handle_status_request cfg h dockerRunning relayOk st).routed_entry
      = get_server_by_port cfg h.server_port := by
  cases hrel : (get_server_by_port cfg h.server_port).isSome && dockerRunning && relayOk <;>
    simp [handle_status_request, hrel]

/-- Every branch of the login gatekeeper returns the registry entry looked
up under `handshake['server_port']`. -/
theorem handle_login_request_routed_entry (cfg : Config) (h : Handshake)
    (loginOk actuallyRunning startOk readyOk connectOk : Bool) (st : ProxyState) :
    (handle_login_request cfg h loginOk actuallyRunning startOk readyOk connectOk
        st).routed_entry = get_server_by_port cfg h.server_port := by
  simp only [handle_login_request]
  cases hserver : get_server_by_port cfg h.server_port with
  | none => rfl
  | some e =>
    cases hphase : dictGet st.server_states h.server_port Phase.stopped <;>
      cases loginOk <;> cases actuallyRunning <;> cases startOk <;>
      cases readyOk <;> cases connectOk <;> rfl

/-- Claim C1, counterexample. A connection accepted on local port `25565`
whose handshake `server_port` field says `30001` is routed to the `30001`
registry entry (`betaEntry`) by both the status and the login handler —
not to the entry of the accept port (`alphaEntry`) as the claim states:
the handlers select the entry by the client-controlled handshake field
(`port = handshake['server_port']`, lines 468 and 542). -/
theorem routing_ignores_accept_port_counterexample :
    (handle_client 25565 twoServerConfig spoofedStatusHandshake false false true
        false true true true initState).routedEntry = some betaEntry
    ∧ (handle_client 25565 twoServerConfig spoofedLoginHandshake false false true
        false true true true initState).routedEntry = some betaEntry
    ∧ get_server_by_port twoServerConfig 25565 = some alphaEntry
    ∧ betaEntry ≠ alphaEntry := by
  refine ⟨rfl, rfl, rfl, by decide⟩

/-- Claim C1, corrected. For both status and login handling the registry
entry used to route the connection is selected by the `server_port` field
of the client's handshake, and the local accept port is never consulted:
the outcome is identical for any two accept ports. -/
theorem routing_uses_handshake_port (acceptPort acceptPort' : Nat) (cfg : Config)
    (h : Handshake)
    (dockerRunning relayOk loginOk actuallyRunning startOk readyOk connectOk : Bool)
    (st : ProxyState) (hstate : h.next_state = 1 ∨ h.next_state = 2) :
    (handle_client acceptPort cfg h dockerRunning relayOk loginOk actuallyRunning
        startOk readyOk connectOk st).routedEntry = get_server_by_port cfg h.server_port
    ∧ handle_client acceptPort cfg h dockerRunning relayOk loginOk actuallyRunning
        startOk readyOk connectOk st
      = handle_client acceptPort' cfg h dockerRunning relayOk loginOk actuallyRunning
        startOk readyOk connectOk st := by
  refine ⟨?_, rfl⟩
  rcases hstate with h1 | h2
  · have hc : handle_client acceptPort cfg h dockerRunning relayOk loginOk
        actuallyRunning startOk readyOk connectOk st
        = .status (handle_status_request cfg h dockerRunning relayOk st) := by
      simp [handle_client, h1]
    rw [hc]
    exact handle_status_request_routed_entry cfg h dockerRunning relayOk st
  · have hc : handle_client acceptPort cfg h dockerRunning relayOk loginOk
        actuallyRunning startOk readyOk connectOk st
        = .login (handle_login_request cfg h loginOk actuallyRunning startOk
            readyOk connectOk st) := by
      simp [handle_client, h2]
    rw [hc]
    exact handle_login_request_routed_entry cfg h loginOk actuallyRunning startOk
      readyOk connectOk st

/-- Witness for `routing_uses_handshake_port` at the spoofed status
handshake, comparing accept ports `25565` and `26000`. -/
theorem routing_uses_handshake_port_witness :
    (handle_client 25565 twoServerConfig spoofedStatusHandshake false false true
        false true true true initState).routedEntry
      = get_server_by_port twoServerConfig spoofedStatusHandshake.server_port
    ∧ handle_client 25565 twoServerConfig spoofedStatusHandshake false false true
        false true true true initState
      = handle_client 26000 twoServerConfig spoofedStatusHandshake false false true
        false true true true initState :=
  routing_uses_handshake_port 25565 26000 twoServerConfig spoofedStatusHandshake
    false false true false true true true initState (Or.inl rfl)

/-! ## Claim C2: status pings are effect-free on backend state -/

/-- Claim C2, confirmed. Handling a status ping never changes the global
per-backend state (phase, connection counts, shutdown timers, live timer
objects), makes no adapter call (in particular it never starts the
backend), and emits no usage event (in particular no `server_start`),
whatever the backend's current run state. -/
theorem status_ping_is_pure (cfg : Config) (h : Handshake)
    (dockerRunning relayOk : Bool) (st : ProxyState) :
    (handle_status_request cfg h dockerRunning relayOk st).state = st
    ∧ (handle_status_request cfg h dockerRunning relayOk st).calls = []
    ∧ (handle_status_request cfg h dockerRunning relayOk st).events = [] := by
  cases hrel : (get_server_by_port cfg h.server_port).isSome && dockerRunning && relayOk <;>
    simp [handle_status_request, hrel]

/-! ## Claim C3: synthesized status response fields -/

/-- Claim C3, counterexample. For a status ping to a stopped backend whose
registry entry caches `display_metadata.max_players = 30`, the synthesized
response carries `players.max = 20`: `handle_status_request` calls
`build_status_response(motd, protocol)` (line 520) without a `max_players`
argument, so the Python default `20` is used and the registry value is
never consulted. -/
theorem status_max_players_counterexample :
    ∃ j, (handle_status_request exampleConfig statusHandshake false true
            initState).response = some j
      ∧ j.players_online = 0
      ∧ j.version_protocol = 765
      ∧ get_server_by_port exampleConfig statusHandshake.server_port = some alphaEntry
      ∧ alphaEntry.display_max_players = 30
      ∧ j.players_max = 20
      ∧ j.players_max ≠ alphaEntry.display_max_players := by
  refine ⟨build_status_response "§7Server is sleeping. §aConnect to wake it up!"
    765 20 0, ?_, rfl, rfl, rfl, rfl, rfl, by decide⟩
  rfl

/-- Claim C3, corrected. For every status ping handled while the backend is
not running, the synthesized response has `players.online = 0`,
`version.protocol` echoing the client's handshake, and `players.max = 20` —
the encoder's hardcoded default, regardless of the registry entry's
`display_metadata.max_players`. -/
theorem synthesized_status_fields (cfg : Config) (h : Handshake)
    (relayOk : Bool) (st : ProxyState) :
    ∃ j, (handle_status_request cfg h false relayOk st).response = some j
      ∧ j.players_online = 0
      ∧ j.players_max = 20
      ∧ j.version_protocol = h.protocol_version := by
  refine ⟨build_status_response "§7Server is sleeping. §aConnect to wake it up!"
    h.protocol_version 20 0, ?_, rfl, rfl, rfl⟩
  simp [handle_status_request]

/-! ## Claim C4: idle timeout zero -/

/-- Claim C4, counterexample. With `timeout = 0` and auto-shutdown enabled,
dropping the count from `1` to `0` still arms a shutdown timer — with a
zero-second delay (it fires at the current time `100`) — and firing it
stops the backend. Idle shutdown is not disabled by a zero timeout:
`decrement_connections` never special-cases `timeout == 0` (lines 401-421).
-/
theorem zero_timeout_still_arms_timer_counterexample :
    (let cfg : Config := ⟨some 0, some true, [alphaEntry]⟩
     let st : ProxyState := ⟨[(25565, 1)], [(25565, Phase.running)], [], [], 0⟩
     let r := (decrement_connections cfg 25565 100 st).1
     dictFind r.shutdown_timers 25565 = some 0
     ∧ r.live_timers = [(0, 100)]
     ∧ (fire_shutdown_timer 25565 0 r).2.2 = [AdapterCall.stop 25565]
     ∧ dictGet (fire_shutdown_timer 25565 0 r).1.server_states 25565 Phase.running
         = Phase.stopped) := by decide

/-- Claim C4, corrected. When `timeout` is `0` and `auto_shutdown` is
enabled, a decrement that brings the active count to zero still arms a
shutdown timer, with deadline `now + 0` — the backend is stopped
immediately rather than idle shutdown being disabled. -/
theorem zero_timeout_arms_immediate_timer (cfg : Config) (port now : Nat)
    (st : ProxyState) (htimeout : cfg.timeout = some 0)
    (hauto : cfg.autoShutdown = true)
    (hcount : dictGet st.server_connections port 0 ≤ 1) :
    dictFind (decrement_connections cfg port now st).1.shutdown_timers port
      = some st.next_timer_id
    ∧ (st.next_timer_id, now) ∈ (decrement_connections cfg port now st).1.live_timers := by
  have hc : dictGet st.server_connections port 0 - 1 = 0 := by omega
  have htm : cfg.timeoutMinutes = 0 := by
    simp [Config.timeoutMinutes, htimeout]
  unfold decrement_connections
  rw [hc]
  simp [hauto, htm, dictFind_dictSet]

/-- Witness for `zero_timeout_arms_immediate_timer` with one active
connection on port `25565` at time `100`. -/
theorem zero_timeout_arms_immediate_timer_witness :
    dictFind (decrement_connections ⟨some 0, some true, [alphaEntry]⟩ 25565 100
        ⟨[(25565, 1)], [(25565, Phase.running)], [], [], 0⟩).1.shutdown_timers 25565
      = some 0
    ∧ ((0 : Nat), (100 : Nat)) ∈ (decrement_connections ⟨some 0, some true, [alphaEntry]⟩
        25565 100 ⟨[(25565, 1)], [(25565, Phase.running)], [], [], 0⟩).1.live_timers :=
  zero_timeout_arms_immediate_timer ⟨some 0, some true, [alphaEntry]⟩ 25565 100
    ⟨[(25565, 1)], [(25565, Phase.running)], [], [], 0⟩ rfl rfl (by decide)

/-! ## Claim C7: idle-timer cancel and re-arm -/

/-- Claim C7, counterexample. Two consecutive decrements (count `1 → 0`,
then a further decrement while the count is already `0`) arm two timers:
the dict slot is replaced by the later timer (id `1`, deadline `340`), but
the earlier timer object (id `0`, deadline `310`) is never
`cancel()`led — it remains live, fires, passes the `count == 0` re-check
and stops the backend. The claim that the earlier pending timer "can no
longer fire and stop the backend" is false. -/
theorem replaced_timer_still_fires_counterexample :
    (let st0 : ProxyState := ⟨[(25565, 1)], [(25565, Phase.running)], [], [], 0⟩
     let st1 := (decrement_connections exampleConfig 25565 10 st0).1
     let st2 := (decrement_connections exampleConfig 25565 40 st1).1
     dictFind st2.shutdown_timers 25565 = some 1
     ∧ st2.live_timers = [(0, 310), (1, 340)]
     ∧ (fire_shutdown_timer 25565 0 st2).2.2 = [AdapterCall.stop 25565]
     ∧ dictGet (fire_shutdown_timer 25565 0 st2).1.server_states 25565 Phase.running
         = Phase.stopped) := by decide

/-- Claim C7, corrected. Cancelling when no timer is armed
(`port not in shutdown_timers`) is a no-op on the timer state. Arming while
a timer `tid` is already armed — the dict slot holds `tid` and the timer
object is live — stores the new timer in the slot, but does not cancel the
earlier timer object: `tid` stays live, and firing it while the count is
zero still stops the backend. -/
theorem idle_timer_cancel_noop_and_rearm_keeps_old_timer
    (cfg : Config) (port now tid d : Nat) (st : ProxyState) :
    (dictFind st.shutdown_timers port = none →
      (increment_connections port st).1.live_timers = st.live_timers
      ∧ (increment_connections port st).1.shutdown_timers = st.shutdown_timers)
    ∧ (dictFind st.shutdown_timers port = some tid →
      (tid, d) ∈ st.live_timers →
      cfg.autoShutdown = true →
      dictGet st.server_connections port 0 ≤ 1 →
      dictFind (decrement_connections cfg port now st).1.shutdown_timers port
        = some st.next_timer_id
      ∧ (tid, d) ∈ (decrement_connections cfg port now st).1.live_timers
      ∧ (fire_shutdown_timer port tid
          (decrement_connections cfg port now st).1).2.2 = [AdapterCall.stop port]) := by
  constructor
  · intro hunarmed
    constructor <;> simp [increment_connections, hunarmed]
  · intro harmed hlive hauto hcount
    have hc : dictGet st.server_connections port 0 - 1 = 0 := by omega
    have hdec : (decrement_connections cfg port now st).1 =
        { st with
          server_connections := dictSet st.server_connections port 0,
          shutdown_timers := dictSet st.shutdown_timers port st.next_timer_id,
          live_timers := st.live_timers ++ [(st.next_timer_id,
            now + cfg.timeoutMinutes * 60)],
          next_timer_id := st.next_timer_id + 1 } := by
      unfold decrement_connections
      rw [hc]
      simp [hauto]
    refine ⟨?_, ?_, ?_⟩
    · rw [hdec]
      exact dictFind_dictSet _ _ _
    · rw [hdec]
      simp [hlive]
    · rw [hdec]
      have hany : ((st.live_timers ++ [(st.next_timer_id,
          now + cfg.timeoutMinutes * 60)]).any (fun t => t.1 == tid)) = true := by
        rw [List.any_eq_true]
        exact ⟨(tid, d), by simp [hlive], by simp⟩
      simp [fire_shutdown_timer, hany, dictGet_dictSet]

/-- Witness for `idle_timer_cancel_noop_and_rearm_keeps_old_timer`: the
cancel-is-a-no-op part at a state whose slot is empty, and the re-arm part
at a state whose slot holds the live timer `(7, 99)`. -/
theorem idle_timer_cancel_noop_and_rearm_keeps_old_timer_witness :
    ((increment_connections 25565
        ⟨[(25565, 1)], [(25565, Phase.running)], [], [(7, 99)], 3⟩).1.live_timers
      = [(7, 99)]
      ∧ (increment_connections 25565
          ⟨[(25565, 1)], [(25565, Phase.running)], [], [(7, 99)], 3⟩).1.shutdown_timers
        = [])
    ∧ (dictFind (decrement_connections exampleConfig 25565 40
          ⟨[(25565, 1)], [(25565, Phase.running)], [(25565, 7)], [(7, 99)], 3⟩).1.shutdown_timers
          25565 = some 3
      ∧ ((7 : Nat), (99 : Nat)) ∈ (decrement_connections exampleConfig 25565 40
          ⟨[(25565, 1)], [(25565, Phase.running)], [(25565, 7)], [(7, 99)], 3⟩).1.live_timers
      ∧ (fire_shutdown_timer 25565 7 (decrement_connections exampleConfig 25565 40
          ⟨[(25565, 1)], [(25565, Phase.running)], [(25565, 7)], [(7, 99)], 3⟩).1).2.2
        = [AdapterCall.stop 25565]) :=
  ⟨(idle_timer_cancel_noop_and_rearm_keeps_old_timer exampleConfig 25565 40 7 99
      ⟨[(25565, 1)], [(25565, Phase.running)], [], [(7, 99)], 3⟩).1 rfl,
   (idle_timer_cancel_noop_and_rearm_keeps_old_timer exampleConfig 25565 40 7 99
      ⟨[(25565, 1)], [(25565, Phase.running)], [(25565, 7)], [(7, 99)], 3⟩).2 rfl
      (by decide) rfl (by decide)⟩

/-! ## Claim C6: readiness-probe timeout during login -/

/-- Claim C6, counterexample. A login that arrives while the phase is
already `starting` and then sees the readiness probe time out is sent a
Disconnect, but the phase is NOT reverted to `stopped`: the waiter branch
(lines 626-631) returns without touching `server_states`. -/
theorem waiter_timeout_leaves_phase_starting_counterexample :
    (let st : ProxyState := ⟨[], [(25565, Phase.starting)], [], [], 0⟩
     let r := handle_login_request exampleConfig loginHandshake true false true false
       true st
     r.disconnect = some "Server is starting. Please try again."
     ∧ dictGet r.state.server_states 25565 Phase.stopped = Phase.starting) := by
  decide

/-- Claim C6, corrected. If the readiness probe times out during a login,
the client is always sent a Disconnect packet with a user-visible reason,
and: when this login initiated the start (phase was `stopped`), the phase
is reverted to `stopped`; when the login arrived while the phase was
already `starting`, the phase is left at `starting` — only the initiating
handler performs the revert. -/
theorem probe_timeout_disconnects (cfg : Config) (h : Handshake) (e : ServerEntry)
    (st : ProxyState) (connectOk : Bool)
    (hentry : get_server_by_port cfg h.server_port = some e) :
    ((dictGet st.server_states h.server_port Phase.stopped = Phase.stopped →
      (handle_login_request cfg h true false true false connectOk st).disconnect
        = some "Server failed to start. Please try again."
      ∧ dictGet (handle_login_request cfg h true false true false connectOk
          st).state.server_states h.server_port Phase.stopped = Phase.stopped))
    ∧ ((dictGet st.server_states h.server_port Phase.stopped = Phase.starting →
      (handle_login_request cfg h true false true false connectOk st).disconnect
        = some "Server is starting. Please try again."
      ∧ dictGet (handle_login_request cfg h true false true false connectOk
          st).state.server_states h.server_port Phase.stopped = Phase.starting)) := by
  constructor
  · intro hphase
    simp only [handle_login_request, hentry]
    simp [hphase, dictGet_dictSet]
  · intro hphase
    simp only [handle_login_request, hentry]
    simp [hphase]

/-- Witness for `probe_timeout_disconnects`: the initiator case from the
empty state (default phase `stopped`) and the waiter case from a state
whose phase is `starting`. -/
theorem probe_timeout_disconnects_witness :
    ((handle_login_request exampleConfig loginHandshake true false true false true
        initState).disconnect = some "Server failed to start. Please try again."
      ∧ dictGet (handle_login_request exampleConfig loginHandshake true false true
          false true initState).state.server_states 25565 Phase.stopped = Phase.stopped)
    ∧ ((handle_login_request exampleConfig loginHandshake true false true false true
        ⟨[], [(25565, Phase.starting)], [], [], 0⟩).disconnect
          = some "Server is starting. Please try again."
      ∧ dictGet (handle_login_request exampleConfig loginHandshake true false true
          false true ⟨[], [(25565, Phase.starting)], [], [], 0⟩).state.server_states
          25565 Phase.stopped = Phase.starting) :=
  ⟨(probe_timeout_disconnects exampleConfig loginHandshake alphaEntry initState true
      rfl).1 rfl,
   (probe_timeout_disconnects exampleConfig loginHandshake alphaEntry
      ⟨[], [(25565, Phase.starting)], [], [], 0⟩ true rfl).2 rfl⟩

/-! ## Claim C8: concurrent cold start (mc_proxy.py lines 578-599)

A small-step interleaving model of the phase-transition region of
`handle_login_request`. Each login thread executes three atomic actions, in
program order:

* `atRead` — lines 583-591: one `with state_lock` block that reads
  `server_states.get(port, 'stopped')` into the thread-local `state`
  (Docker reports not-running during a cold start, so reconciliation does
  not change the phase);
* `atSet` — lines 596-597: for a thread whose observed state was
  `'stopped'`, a SECOND, separate `with state_lock` block that sets the
  phase to `'starting'`; a thread that observed anything else skips to its
  wait/dial path and never calls start;
* `atStart` — line 599: `docker_mgr.start_server(port)`, outside any lock.

The lock is NOT held from the read through the set, so two threads may both
observe `'stopped'` before either sets `'starting'`. -/

inductive LoginPc
  | atRead
  | atSet
  | atStart
  | done
deriving BEq, DecidableEq

/-- One login thread: its program counter and the phase it observed in its
`atRead` step, mirroring the local variable `state`. -/
structure LoginThread where
  pc : LoginPc
  observed : Option Phase
deriving BEq, DecidableEq

/-- The shared state: the backend's phase, the number of
`start_server` invocations so far, and the threads. -/
structure StartRace where
  phase : Phase
  startCalls : Nat
  threads : List LoginThread
deriving BEq, DecidableEq

/-- Execute one atomic action of thread `t` against the shared state. -/
def stepThread (t : LoginThread) (phase : Phase) (startCalls : Nat) :
    LoginThread × Phase × Nat :=
  match t.pc with
  | .atRead => ({ t with pc := .atSet, observed := some phase }, phase, startCalls)
  | .atSet =>
    if t.observed == some Phase.stopped then
      ({ t with pc := .atStart }, Phase.starting, startCalls)
    else
      ({ t with pc := .done }, phase, startCalls)
  | .atStart => ({ t with pc := .done }, phase, startCalls + 1)
  | .done => (t, phase, startCalls)

/-- Let thread `i` take its next atomic action (no-op for an invalid id). -/
def stepSys (s : StartRace) (i : Nat) : StartRace :=
  match s.threads.get? i with
  | none => s
  | some t =>
    let r := stepThread t s.phase s.startCalls
    { phase := r.2.1, startCalls := r.2.2, threads := s.threads.set i r.1 }

/-- Run a schedule: the interleaving is the list of thread ids that take
successive atomic actions. -/
def runSchedule (s : StartRace) : List Nat → StartRace
  | [] => s
  | i :: rest => runSchedule (stepSys s i) rest

/-- `n` login threads arriving while the backend phase is `stopped`. -/
def initRace (n : Nat) : StartRace :=
  ⟨Phase.stopped, 0, List.replicate n ⟨LoginPc.atRead, none⟩⟩

/-- Claim C8, counterexample. Two logins arrive while the phase is
`stopped`. Under the schedule in which both threads execute their
read-phase critical section before either executes its set-`starting`
critical section, BOTH observe `stopped` and `start_server` is invoked
twice — not "exactly once" as the claim states. The schedule is a legal
interleaving because the lock is released between the read (lines 583-591)
and the set (lines 596-597). -/
theorem concurrent_cold_start_double_start_counterexample :
    (runSchedule (initRace 2) [0, 1, 0, 0, 1, 1]).startCalls = 2 := by decide

/-- Per-thread start budget: a thread that has not finished may contribute
at most one future `start_server` call. -/
def LoginThread.budget (t : LoginThread) : Nat :=
  match t.pc with
  | .done => 0
  | _ => 1

/-- Total potential: calls already made plus remaining budgets. -/
def racePotential (s : StartRace) : Nat :=
  s.startCalls + (s.threads.map LoginThread.budget).sum

theorem sum_map_set {α : Type} (f : α → Nat) :
    ∀ (l : List α) (i : Nat) (t t' : α), l.get? i = some t →
      ((l.set i t').map f).sum + f t = (l.map f).sum + f t' := by
  intro l
  induction l with
  | nil => intro i t t' hg; simp at hg
  | cons a l ih =>
    intro i t t' hg
    cases i with
    | zero =>
      rw [List.get?_cons_zero] at hg
      injection hg with hg
      subst hg
      simp only [List.set_cons_zero, List.map_cons, List.sum_cons]
      omega
    | succ i =>
      rw [List.get?_cons_succ] at hg
      have := ih i t t' hg
      simp only [List.set_cons_succ, List.map_cons, List.sum_cons]
      omega

theorem stepThread_budget (t : LoginThread) (ph : Phase) (c : Nat) :
    (stepThread t ph c).2.2 + (stepThread t ph c).1.budget ≤ c + t.budget := by
  rcases t with ⟨pc, obs⟩
  cases pc <;> simp [stepThread, LoginThread.budget] <;> split <;>
    simp [LoginThread.budget]

theorem stepSys_potential (s : StartRace) (i : Nat) :
    racePotential (stepSys s i) ≤ racePotential s := by
  unfold stepSys
  cases hget : s.threads.get? i with
  | none => exact le_refl _
  | some t =>
    have hsum := sum_map_set LoginThread.budget s.threads i t
      ((stepThread t s.phase s.startCalls).1) hget
    have hstep := stepThread_budget t s.phase s.startCalls
    simp only [racePotential]
    omega

theorem runSchedule_potential (sched : List Nat) :
    ∀ s, racePotential (runSchedule s sched) ≤ racePotential s := by
  induction sched with
  | nil => intro s; exact le_refl _
  | cons i rest ih =>
    intro s
    exact le_trans (ih (stepSys s i)) (stepSys_potential s i)

theorem initRace_potential (n : Nat) : racePotential (initRace n) = n := by
  simp [racePotential, initRace, List.map_replicate, LoginThread.budget,
    List.sum_replicate, smul_eq_mul]

/-- Claim C8, corrected. For `n` concurrent logins arriving while the phase
is `stopped`, the adapter's start is invoked at most `n` times — at most
once per login — but not exactly once: because the phase read and the
`starting` transition are in separate critical sections, several logins can
observe `stopped` and each invoke the start
(`concurrent_cold_start_double_start_counterexample`). A login that instead
observes `starting` makes no adapter call; it polls the readiness probe and
splices iff the probe and the backend dial succeed. -/
theorem concurrent_cold_start_bound_and_waiter (n : Nat) (sched : List Nat)
    (cfg : Config) (h : Handshake) (e : ServerEntry) (st : ProxyState)
    (readyOk connectOk : Bool)
    (hentry : get_server_by_port cfg h.server_port = some e)
    (hstarting : dictGet st.server_states h.server_port Phase.stopped
      = Phase.starting) :
    (runSchedule (initRace n) sched).startCalls ≤ n
    ∧ (handle_login_request cfg h true false true readyOk connectOk st).calls = []
    ∧ (handle_login_request cfg h true false true readyOk connectOk st).proxied
        = (readyOk && connectOk) := by
  refine ⟨?_, ?_, ?_⟩
  · have h1 : (runSchedule (initRace n) sched).startCalls
        ≤ racePotential (runSchedule (initRace n) sched) :=
      Nat.le_add_right _ _
    have h2 := runSchedule_potential sched (initRace n)
    rw [initRace_potential] at h2
    omega
  · simp only [handle_login_request, hentry]
    cases readyOk <;> cases connectOk <;>
      simp [hstarting, dial_and_splice, increment_connections]
  · simp only [handle_login_request, hentry]
    cases readyOk <;> cases connectOk <;>
      simp [hstarting, dial_and_splice, increment_connections]

/-- Witness for `concurrent_cold_start_bound_and_waiter`: five threads under
a concrete schedule, and a waiter login on port `25565` while the phase is
`starting`, with the probe succeeding and the dial succeeding. -/
theorem concurrent_cold_start_bound_and_waiter_witness :
    (runSchedule (initRace 5) [0, 1, 2, 0, 0, 1, 1, 2, 2]).startCalls ≤ 5
    ∧ (handle_login_request exampleConfig loginHandshake true false true true true
        ⟨[], [(25565, Phase.starting)], [], [], 0⟩).calls = []
    ∧ (handle_login_request exampleConfig loginHandshake true false true true true
        ⟨[], [(25565, Phase.starting)], [], [], 0⟩).proxied = (true && true) :=
  concurrent_cold_start_bound_and_waiter 5 [0, 1, 2, 0, 0, 1, 1, 2, 2]
    exampleConfig loginHandshake alphaEntry
    ⟨[], [(25565, Phase.starting)], [], [], 0⟩ true true rfl rfl

end MCProxy
